import Mathlib

/-!
Verification development for the multi-instance chat backend
(backend services: distributed lock, sync queue, sync worker,
message cache, realtime socket hub, room model).

Each definition is a shallow embedding of the corresponding JavaScript
function; the doc comment of every definition names its source location.
JavaScript strings are `String`, `undefined`/`null` are `Option.none`,
and `===` on possibly-undefined values is `jsStrictEq`.
-/

namespace ChatBackend

/-- JavaScript strict equality `===` between two values that are either a
string or `undefined`/`null` (modelled as `Option String`):
`undefined === undefined` is true, `undefined === "s"` is false, and two
strings compare by content. -/
def jsStrictEq : Option String → Option String → Bool
  | some a, some b => a == b
  | none, none => true
  | _, _ => false

/-! ## Hot-tier key-value store

The Redis string keyspace is modelled as an association list from keys to
stored entries; `kvSet` overwrites an existing binding. -/

/-- One stored Redis string value together with its optional expiry
(milliseconds TTL); a plain `SET` leaves `expires = none`. -/
structure KvEntry where
  value : String
  expires : Option Nat
deriving DecidableEq, Repr

/-- Replace (or add) the binding of `key` in an association map; this is
both JS `Map.set` and a Redis write to an existing/new key. -/
def assocSet {α : Type} : List (String × α) → String → α → List (String × α)
  | [], key, e => [(key, e)]
  | (k, v) :: rest, key, e =>
    if k == key then (k, e) :: rest else (k, v) :: assocSet rest key e

/-- Remove the binding of `key` (Redis `DEL`, JS `Map.delete`). -/
def assocDel {α : Type} : List (String × α) → String → List (String × α)
  | [], _ => []
  | (k, v) :: rest, key =>
    if k == key then rest else (k, v) :: assocDel rest key

/-! ## Claim C1 / C2: distributed lock service

`DistributedLockService` (backend/services/distributedLockService.js) keeps
an in-memory map `activeLocks : lockKey → lockInfo` and talks to the hot
tier through the `RedisClient` wrapper (backend/utils/redisClient.js). -/

/-- The options object accepted by `RedisClient.set(key, value, options)`
(redisClient.js:114) and `RedisClusterClient.set(key, value, options)`
(redisClusterClient.js:294): the only consulted property is `options.ttl`. -/
structure SetOptions where
  ttl : Option Nat
deriving DecidableEq, Repr

/-- `RedisClusterClient.set` (redisClusterClient.js:294-318): when
`options.ttl` is set the value is written with that expiry (`setEx`),
otherwise a plain `SET` with no expiry is issued; the command replies
`"OK"` in both cases.  There is no `NX` branch anywhere in the wrapper. -/
def redisSet (st : List (String × KvEntry)) (key value : String) (opts : SetOptions) :
    List (String × KvEntry) × String :=
  match opts.ttl with
  | some t => (assocSet st key ⟨value, some t⟩, "OK")
  | none => (assocSet st key ⟨value, none⟩, "OK")

/-- The `RedisClient` wrapper (backend/utils/redisClient.js:73-291) exposes
`set/get/setEx/del/expire/jsonSet/jsonGet/jsonDel/ftCreate/ftSearch/ftInfo/
ftDropIndex/getClusterStatus/quit` and nothing else; in particular it has
no `eval` method, so the call `redisClient.eval(script, 1, key, value)` in
`releaseLock` (distributedLockService.js:93) raises
`TypeError: redisClient.eval is not a function`.  Modelled as an
always-failing `Except`. -/
def redisClientEvalCall (_st : List (String × KvEntry)) (_script : String)
    (_keys _args : List String) : Except String (List (String × KvEntry) × Nat) :=
  Except.error "redisClient.eval is not a function"

/-- The per-lock record kept in `this.activeLocks`
(distributedLockService.js:41-47). -/
structure LockInfo where
  value : String
  resource : String
  ttl : Nat
deriving DecidableEq, Repr

/-- The shared hot-tier keyspace together with one instance's in-memory
`activeLocks` map. -/
structure LockState where
  store : List (String × KvEntry)
  activeLocks : List (String × LockInfo)
deriving DecidableEq, Repr

/-- `getLockKey` (distributedLockService.js:310-312). -/
def getLockKey (resource : String) : String :=
  "distributed_lock:" ++ resource

/-- The retry loop of `DistributedLockService.acquireLock`
(distributedLockService.js:29-67).  Each iteration executes
`redisClient.set(lockKey, lockValue, 'PX', ttl, 'NX')`; since
`RedisClient.set` is declared as `set(key, value, options = {})`
(redisClient.js:114), the string `'PX'` is bound to `options` and the
remaining arguments `ttl` and `'NX'` are discarded, and a string has no
`ttl` property, so the effective call is `redisSet` with
`⟨none⟩ : SetOptions` — an unconditional `SET` with no expiry.  On reply
`"OK"` the lock is recorded in `activeLocks` and the call returns `true`;
otherwise it retries until `maxRetries` attempts are exhausted. -/
def acquireLockLoop (store : List (String × KvEntry))
    (activeLocks : List (String × LockInfo))
    (resource lockValue : String) (ttl : Nat) :
    Nat → LockState × Bool
  | 0 => (⟨store, activeLocks⟩, false)
  | n + 1 =>
    let lockKey := getLockKey resource
    let (store', reply) := redisSet store lockKey lockValue ⟨none⟩
    if reply == "OK" then
      (⟨store', assocSet activeLocks lockKey ⟨lockValue, resource, ttl⟩⟩, true)
    else
      acquireLockLoop store activeLocks resource lockValue ttl n

/-- `DistributedLockService.acquireLock(resource, ttl, maxRetries)`
(distributedLockService.js:29-67) with defaults `ttl = 30000`,
`maxRetries = 50` supplied at call sites. -/
def acquireLock (s : LockState) (resource lockValue : String)
    (ttl maxRetries : Nat) : LockState × Bool :=
  acquireLockLoop s.store s.activeLocks resource lockValue ttl maxRetries

/-- `DistributedLockService.releaseLock(resource)`
(distributedLockService.js:74-108): when no `activeLocks` entry exists it
returns `false`; otherwise it runs the compare-and-delete Lua script
through `redisClient.eval`.  That call always raises (see
`redisClientEvalCall`), the `catch` block swallows the error, and the
method returns `false` leaving both the keyspace and `activeLocks`
untouched. -/
def releaseLock (s : LockState) (resource : String) : LockState × Bool :=
  let lockKey := getLockKey resource
  match s.activeLocks.lookup lockKey with
  | none => (s, false)
  | some info =>
    match redisClientEvalCall s.store
        "if get == value then del else 0" [lockKey] [info.value] with
    | Except.ok (store', r) =>
      if r = 1 then
        (⟨assocDel store' lockKey, assocDel s.activeLocks lockKey⟩, true)
      else
        (s, false)
    | Except.error _ => (s, false)

/-! ## Hot-tier message documents

The JSON documents stored under `message:<messageId>`
(MessageCacheService, backend/services/messageCacheService.js). -/

/-- One element of the `readers` array: `{userId, readAt}`
(messageCacheService.js:380). -/
structure RReader where
  userId : String
  readAt : String
deriving DecidableEq, Repr

/-- The denormalized `sender` sub-document
(messageCacheService.js:35-40). -/
structure RSender where
  senderId : String
  name : String
  email : String
  profileImage : String
deriving DecidableEq, Repr

/-- The Redis-shape message document written by `createMessage`
(messageCacheService.js:296-310).  The file descriptor is kept opaque (no
claim inspects its fields) and `metadata` is a string map. -/
structure RMsg where
  msgId : String
  room : String
  content : String
  sender : RSender
  mtype : String
  file : Option String
  aiType : Option String
  mentions : List String
  timestamp : Nat
  readers : List RReader
  reactions : List (String × List String)
  metadata : List (String × String)
  isDeleted : Bool
deriving DecidableEq, Repr

/-- `getCacheKey` (messageCacheService.js:70-72). -/
def getCacheKey (messageId : String) : String :=
  "message:" ++ messageId

/-! ## Claim C3: createMessage locking discipline -/

/-- The inbound payload of `createMessage(messageData)`: the fields read at
messageCacheService.js:296-310.  Optional fields default exactly as the
`||` fallbacks there. -/
structure MessagePayload where
  room : String
  content : Option String
  sender : RSender
  mtype : Option String
  file : Option String
  aiType : Option String
  mentions : Option (List String)
  metadata : Option (List (String × String))
deriving DecidableEq, Repr

/-- The `redisMessage` object literal of `createMessage`
(messageCacheService.js:296-310): fresh id, `timestamp = Date.now()`,
empty `readers`, empty `reactions`, `isDeleted = false`. -/
def buildRedisMessage (p : MessagePayload) (messageId : String) (nowMs : Nat) : RMsg :=
  { msgId := messageId
    room := p.room
    content := p.content.getD ""
    sender := p.sender
    mtype := p.mtype.getD "text"
    file := p.file
    aiType := p.aiType
    mentions := p.mentions.getD []
    timestamp := nowMs
    readers := []
    reactions := []
    metadata := p.metadata.getD []
    isDeleted := false }

/-- The externally visible effects of one `createMessage` run, in program
order. -/
inductive CMEvent
  | lockAcquire (resource : String) (ttl retries : Nat) (ok : Bool)
  | jsonSetWrite (key : String)
  | enqueue (operation messageId : String)
  | broadcast (operation messageId : String)
  | lockRelease (resource : String)
deriving DecidableEq, Repr

/-- Result of a `createMessage` run: the returned message or the thrown
error, the ordered effect trace, and the hot-tier message keyspace after
the run. -/
structure CMOutcome where
  result : Except String RMsg
  events : List CMEvent
  cache : List (String × RMsg)
deriving Repr

/-- `MessageCacheService.createMessage(messageData)`
(messageCacheService.js:279-349), abstracted over the outcomes of its
awaited effects: `lockOk` is the boolean returned by
`distributedLockService.acquireLock(roomLockResource, 5000, 30)`
(line 286), and `jsonSetOk` / `enqueueOk` / `broadcastOk` say whether
`redisClient.jsonSet` (line 314), `syncQueueService.enqueueCreateMessage`
(line 318) and `crossInstanceRedisService.broadcastMessageSync` (line 321)
resolve or reject.  When acquisition fails the function throws
`Error('Failed to acquire distributed lock for message creation')`
(line 288); any throw lands in the `catch` block (lines 342-348), which
awaits `releaseLock(roomLockResource)` and only then rethrows.  The happy
path releases the lock (line 324) before returning. -/
def createMessage (cache : List (String × RMsg)) (p : MessagePayload)
    (messageId : String) (nowMs : Nat)
    (lockOk jsonSetOk enqueueOk broadcastOk : Bool) : CMOutcome :=
  let resource := "room_message_create:" ++ p.room
  if !lockOk then
    { result := Except.error "Failed to acquire distributed lock for message creation"
      events := [CMEvent.lockAcquire resource 5000 30 false, CMEvent.lockRelease resource]
      cache := cache }
  else
    let m := buildRedisMessage p messageId nowMs
    let key := getCacheKey messageId
    if !jsonSetOk then
      { result := Except.error "JSON.SET rejected"
        events := [CMEvent.lockAcquire resource 5000 30 true, CMEvent.lockRelease resource]
        cache := cache }
    else
      let cache' := assocSet cache key m
      if !enqueueOk then
        { result := Except.error "enqueueCreateMessage rejected"
          events := [CMEvent.lockAcquire resource 5000 30 true,
                     CMEvent.jsonSetWrite key, CMEvent.lockRelease resource]
          cache := cache' }
      else if !broadcastOk then
        { result := Except.error "broadcastMessageSync rejected"
          events := [CMEvent.lockAcquire resource 5000 30 true,
                     CMEvent.jsonSetWrite key, CMEvent.enqueue "CREATE_MESSAGE" messageId,
                     CMEvent.lockRelease resource]
          cache := cache' }
      else
        { result := Except.ok m
          events := [CMEvent.lockAcquire resource 5000 30 true,
                     CMEvent.jsonSetWrite key, CMEvent.enqueue "CREATE_MESSAGE" messageId,
                     CMEvent.broadcast "CREATE_MESSAGE" messageId,
                     CMEvent.lockRelease resource]
          cache := cache' }

/-! ## Claims C4 / C8: paged history reads -/

/-- Insert into a list already sorted by descending `timestamp`. -/
def insertDescByTs (m : RMsg) : List RMsg → List RMsg
  | [] => [m]
  | x :: xs => if m.timestamp ≤ x.timestamp then x :: insertDescByTs m xs
               else m :: x :: xs

/-- Sort by descending `timestamp` (the `SORTBY timestamp DESC` of the
hot-tier search, and the `.sort({timestamp: -1})` of the durable query). -/
def sortDescByTs : List RMsg → List RMsg
  | [] => []
  | x :: xs => insertDescByTs x (sortDescByTs xs)

/-- Sort by ascending `timestamp`
(`resultMessages.sort((a, b) => new Date(a.timestamp) - new Date(b.timestamp))`,
messageCacheService.js:180-182). -/
def sortAscByTs (l : List RMsg) : List RMsg :=
  (sortDescByTs l).reverse

/-- The search expression built by `buildMessageSearchQuery`
(messageCacheService.js:211-220) as a predicate on a stored document:
`@room:{roomId} @isDeleted:{false}` plus, when `beforeTimestamp` is given,
the inclusive numeric range `@timestamp:[0 before]`. -/
def matchesSearchQuery (roomId : String) (before : Option Nat) (m : RMsg) : Bool :=
  m.room == roomId && !m.isDeleted &&
    (match before with
     | none => true
     | some b => m.timestamp ≤ b)

/-- `FT.SEARCH idx_chat_messages` as issued by `getMessagesByRoom` with the
options of `buildMessageSearchOptions` (messageCacheService.js:225-233):
`SORTBY timestamp DESC`, `LIMIT 0 limit`. -/
def ftSearchMessages (docs : List RMsg) (roomId : String) (before : Option Nat)
    (limit : Nat) : List RMsg :=
  (sortDescByTs (docs.filter (matchesSearchQuery roomId before))).take limit

/-- The value returned by `getMessagesByRoom` / `getMessagesFromMongoDB`. -/
structure PageResult where
  messages : List RMsg
  hasMore : Bool
  oldestTimestamp : Option Nat
  source : String
deriving DecidableEq, Repr

/-- `MessageCacheService.getMessagesFromMongoDB(roomId, beforeTimestamp, limit)`
(messageCacheService.js:161-206): `Message.find({room, isDeleted: false,
timestamp: {$lt: before}})` sorted by timestamp descending, `limit + 1`
fetched to decide `hasMore`, the first `limit` re-sorted ascending;
`oldestTimestamp = sortedMessages[0]?.timestamp`, `source = 'mongodb'`.
(The write-back of the fetched documents into the hot tier does not affect
the returned value and is not modelled.) -/
def getMessagesFromMongoDB (db : List RMsg) (roomId : String) (before : Option Nat)
    (limit : Nat) : PageResult :=
  let q := db.filter (fun m => m.room == roomId && !m.isDeleted &&
    (match before with
     | none => true
     | some b => m.timestamp < b))
  let fetched := (sortDescByTs q).take (limit + 1)
  let hasMore := decide (limit < fetched.length)
  let sorted := sortAscByTs (fetched.take limit)
  { messages := sorted
    hasMore := hasMore
    oldestTimestamp := (sorted.head?).map RMsg.timestamp
    source := "mongodb" }

/-- `MessageCacheService.getMessagesByRoom(roomId, beforeTimestamp, limit)`
(messageCacheService.js:119-156).  On a hot-tier hit
(`searchResult.documents.length > 0`) the documents are re-fetched by key
(`parseRedisMessageResults`, same keyspace, search order preserved);
`hasMore = searchResult.documents.length >= limit`, and
`oldestTimestamp = messages[0].timestamp` is read from the still
newest-first array BEFORE `messages.reverse()` (lines 136-140); the
reversed array is returned with `source = 'redis'`.  On zero matches (or a
hot-tier error) the MongoDB fallback is taken. -/
def getMessagesByRoom (hotDocs mongoDocs : List RMsg) (roomId : String)
    (before : Option Nat) (limit : Nat) : PageResult :=
  let found := ftSearchMessages hotDocs roomId before limit
  if 0 < found.length then
    { messages := found.reverse
      hasMore := decide (limit ≤ found.length)
      oldestTimestamp := (found.head?).map RMsg.timestamp
      source := "redis" }
  else
    getMessagesFromMongoDB mongoDocs roomId before limit

/-- JavaScript `parseInt(limit) || 30` (messageController.js:40):
`parseInt` yields `NaN` on a missing or non-numeric query value (modelled
`none`), and both `NaN` and `0` are falsy, so both fall back to `30`. -/
def parsedLimitOrDefault : Option Nat → Nat
  | none => 30
  | some 0 => 30
  | some (n + 1) => n + 1

/-- The effective page limit passed by `loadMessages` to
`getMessagesByRoom` (messageController.js:37-41):
`Math.min(parseInt(limit) || 30, 100)`. -/
def effectiveLimit (q : Option Nat) : Nat :=
  min (parsedLimitOrDefault q) 100

/-- `GET /api/rooms/:roomId/messages` data path (messageController.js:14-80)
after the participation check: the cache-first read with the clamped
limit. -/
def loadMessagesEndpoint (hotDocs mongoDocs : List RMsg) (roomId : String)
    (before : Option Nat) (limitParam : Option Nat) : PageResult :=
  getMessagesByRoom hotDocs mongoDocs roomId before (effectiveLimit limitParam)

/-! ## Claim C5: markAsRead -/

/-- Result of `markAsRead`: the returned list of effectively updated ids,
the message keyspace afterwards, and the `MARK_AS_READ` enqueues
`(messageId, userId)` in order. -/
structure MarkAsReadOutcome where
  updated : List String
  cache : List (String × RMsg)
  queued : List (String × String)
deriving DecidableEq, Repr

/-- The per-id loop body of `MessageCacheService.markAsRead`
(messageCacheService.js:365-395): `JSON.GET message:<id>`; when the
document is absent, skip; when `readers` already contains an entry with
this `userId`, skip; otherwise push `{userId, readAt}`, write the readers
field back (`JSON.SET $.readers`), record the id and enqueue
`MARK_AS_READ`. -/
def markAsReadLoop : List (String × RMsg) → String → String → List String →
    MarkAsReadOutcome
  | cache, _, _, [] => ⟨[], cache, []⟩
  | cache, uid, readAt, id :: rest =>
    let key := getCacheKey id
    match cache.lookup key with
    | none => markAsReadLoop cache uid readAt rest
    | some m =>
      if m.readers.any (fun r => r.userId == uid) then
        markAsReadLoop cache uid readAt rest
      else
        let m' := { m with readers := m.readers ++ [⟨uid, readAt⟩] }
        let out := markAsReadLoop (assocSet cache key m') uid readAt rest
        ⟨id :: out.updated, out.cache, (id, uid) :: out.queued⟩

/-- `MessageCacheService.markAsRead(messageIds, userId)`
(messageCacheService.js:354-404).  `readAt = new Date().toISOString()` is
computed once before the loop; an empty (or non-array) `messageIds`
returns `[]` immediately, which coincides with the loop base case. -/
def markAsRead (cache : List (String × RMsg)) (messageIds : List String)
    (uid readAt : String) : MarkAsReadOutcome :=
  markAsReadLoop cache uid readAt messageIds

/-- The payload of a `messagesRead` broadcast (chat.js:754-757). -/
structure MessagesReadBroadcast where
  userId : String
  messageIds : List String
deriving DecidableEq, Repr

/-- The `markMessagesAsRead` socket handler's broadcast decision
(chat.js:751-765): after `markAsRead`, `messagesRead` is emitted to the
room iff the effectively updated list is non-empty. -/
def markMessagesAsReadBroadcast (updated : List String) (uid : String) :
    Option MessagesReadBroadcast :=
  if 0 < updated.length then some ⟨uid, updated⟩ else none

/-- The skip condition of the loop, as a predicate on the keyspace the loop
started from: the id is effectively updated iff its document is cached and
its `readers` has no entry for `uid`. -/
def readNeeded (cache : List (String × RMsg)) (uid id : String) : Bool :=
  match cache.lookup (getCacheKey id) with
  | none => false
  | some m => !(m.readers.any (fun r => r.userId == uid))

/-! ## Claim C6: sync queue retry / dead-letter -/

/-- `MAX_RETRIES` (syncQueueService.js constructor). -/
def MAX_RETRIES : Nat := 3

/-- A stream entry of `mongo_sync_stream` / `mongo_sync_dead_letter`: the
fields appended by `enqueueMessageSync` (syncQueueService.js:20-43) plus
the retry / dead-letter annotations added by `handleFailedMessage`
(syncQueueService.js:184-221).  `data` is the serialized payload. -/
structure SyncStreamEntry where
  operation : String
  data : String
  timestamp : String
  retryCount : Nat
  originalMessageId : Option String
  lastError : Option String
  retryTimestamp : Option String
  finalError : Option String
  failedAt : Option String
deriving DecidableEq, Repr

/-- The two streams plus the set of acknowledged entry ids. -/
structure SyncQueueState where
  primary : List SyncStreamEntry
  deadLetter : List SyncStreamEntry
  acked : List String
deriving DecidableEq, Repr

/-- `SyncQueueService.handleFailedMessage(messageId, payload, error)`
(syncQueueService.js:184-221): `retryCount = (payload.retryCount || 0) + 1`;
if `retryCount <= MAX_RETRIES` a retry entry (spread of the payload with
the incremented count, `originalMessageId`, `lastError`, `retryTimestamp`)
is appended to the primary stream, otherwise a dead-letter entry (spread
with `finalError`, `failedAt`, `originalMessageId`) is appended to
`mongo_sync_dead_letter`; in both cases the original entry is ACKed. -/
def handleFailedMessage (qs : SyncQueueState) (messageId : String)
    (payload : SyncStreamEntry) (errMsg nowIso : String) : SyncQueueState :=
  let retryCount := payload.retryCount + 1
  if retryCount ≤ MAX_RETRIES then
    { qs with
      primary := qs.primary ++
        [{ payload with
            retryCount := retryCount
            originalMessageId := some messageId
            lastError := some errMsg
            retryTimestamp := some nowIso }]
      acked := qs.acked ++ [messageId] }
  else
    { qs with
      deadLetter := qs.deadLetter ++
        [{ payload with
            finalError := some errMsg
            failedAt := some nowIso
            originalMessageId := some messageId }]
      acked := qs.acked ++ [messageId] }

/-! ## Claim C7: sync worker idempotence on the durable tier -/

/-- A reader entry of the durable `Message` document. -/
structure DReader where
  userId : String
  readAt : Nat
deriving DecidableEq, Repr

/-- A durable-tier `Message` document as constructed by
`MongoSyncWorker.handleCreateMessage` (mongoSyncWorker.js:173-190). -/
structure DMsg where
  msgId : String
  room : String
  senderId : String
  content : String
  mtype : String
  file : Option String
  aiType : Option String
  mentions : List String
  timestamp : Nat
  readers : List DReader
  reactions : List (String × List String)
  metadata : List (String × String)
  isDeleted : Bool
deriving DecidableEq, Repr

/-- `MongoSyncWorker.handleCreateMessage(messageData)`
(mongoSyncWorker.js:167-203): `new Message({...}).save()` inserts the
document; MongoDB raises duplicate-key (code 11000) iff a document with
this `_id` already exists, which the handler treats as success (lines
196-200). -/
def handleCreateMessage (db : List DMsg) (m : DMsg) : List DMsg :=
  if db.any (fun d => d.msgId == m.msgId) then db else db ++ [m]

/-- `Message.updateOne({_id, 'readers.userId': {$ne: userId}},
{$push: {readers: {userId, readAt}}})` issued by
`MongoSyncWorker.handleMarkAsRead` (mongoSyncWorker.js:232-263):
`updateOne` modifies at most the first document matching the filter. -/
def markAsReadUpdateOne : List DMsg → String → String → Nat → List DMsg
  | [], _, _, _ => []
  | d :: rest, mid, uid, readAt =>
    if d.msgId == mid && !(d.readers.any (fun r => r.userId == uid)) then
      { d with readers := d.readers ++ [⟨uid, readAt⟩] } :: rest
    else
      d :: markAsReadUpdateOne rest mid uid readAt

/-- The sync events whose durable-tier handlers claim C7 cites:
`CREATE_MESSAGE` (mongoSyncWorker.js:167-203) and `MARK_AS_READ`
(mongoSyncWorker.js:232-263). -/
inductive SyncEvent
  | createMessage (m : DMsg)
  | markAsRead (messageId userId : String) (readAt : Nat)
deriving DecidableEq, Repr

/-- Dispatch of `processSyncMessage` (mongoSyncWorker.js:112-162) restricted
to the two cited operations, as a transformation of the durable tier. -/
def applySyncEvent (db : List DMsg) : SyncEvent → List DMsg
  | SyncEvent.createMessage m => handleCreateMessage db m
  | SyncEvent.markAsRead mid uid readAt => markAsReadUpdateOne db mid uid readAt

/-! ## Claim C9: streaming-session cleanup -/

/-- The streaming-session object literal created by `handleAIResponse`
(chat.js:848-857): fields `room`, `aiType`, `content`, `messageId`,
`timestamp`, `lastUpdate`, `reactions` — and nothing else. -/
structure StreamingSession where
  room : String
  aiType : String
  content : String
  messageId : String
  timestamp : Nat
  lastUpdate : Nat
  reactions : List (String × List String)
deriving DecidableEq, Repr

/-- Reading `session.userId` (chat.js:620 and chat.js:667): the object
literal at chat.js:849-857 has no `userId` property (indeed
`handleAIResponse(io, room, aiName, query)` is never told which user
triggered it), so the property read evaluates to `undefined`. -/
def sessionUserIdRead (_s : StreamingSession) : Option String := none

/-- `handleAIResponse` session registration (chat.js:843-857):
`streamingSessions.set(messageId, {...})` with
`messageId = aiName + '-' + Date.now()`. -/
def startStreamingSession (sessions : List (String × StreamingSession))
    (room aiName : String) (nowMs : Nat) : List (String × StreamingSession) :=
  let messageId := aiName ++ "-" ++ toString nowMs
  assocSet sessions messageId
    { room := room, aiType := aiName, content := "", messageId := messageId,
      timestamp := nowMs, lastUpdate := nowMs, reactions := [] }

/-- The `leaveRoom` streaming-session cleanup loop (chat.js:618-623):
delete every entry with
`session.room === roomId && session.userId === socket.user.id`;
`socket.user.id` is always a string (chat.js:195-201). -/
def leaveRoomStreamCleanup (sessions : List (String × StreamingSession))
    (roomId uid : String) : List (String × StreamingSession) :=
  sessions.filter (fun e =>
    !(e.2.room == roomId && jsStrictEq (sessionUserIdRead e.2) (some uid)))

/-- The `disconnect` streaming-session cleanup loop (chat.js:665-670):
delete every entry with `session.userId === socket.user.id`. -/
def disconnectStreamCleanup (sessions : List (String × StreamingSession))
    (uid : String) : List (String × StreamingSession) :=
  sessions.filter (fun e => !(jsStrictEq (sessionUserIdRead e.2) (some uid)))

/-! ## Claim C10: Room.checkPassword -/

/-- The durable `Room` document as far as `checkPassword` reads it
(backend/models/Room.js): the `password` field has `select: false` and is
re-fetched with `.select('+password')` inside the method, so the value
compared is the one stored in the durable tier (`none` when the document
has no password field). -/
structure RoomDoc where
  name : String
  hasPassword : Bool
  password : Option String
deriving DecidableEq, Repr

/-- `RoomSchema.methods.checkPassword(password)` (Room.js:47-52): when
`hasPassword` is falsy it returns `true` without looking at the argument;
otherwise it re-loads the room with the password selected and returns the
plain strict equality `password === room.password`. -/
def checkPassword (r : RoomDoc) (p : Option String) : Bool :=
  if !r.hasPassword then true
  else jsStrictEq p r.password

/-! ## Helper lemmas -/

theorem jsStrictEq_iff (a b : Option String) : jsStrictEq a b = true ↔ a = b := by
  cases a <;> cases b <;> simp [jsStrictEq]

theorem assocSet_lookup_self {α : Type} (st : List (String × α)) (key : String) (e : α) :
    (assocSet st key e).lookup key = some e := by
  induction st with
  | nil => simp [assocSet, List.lookup]
  | cons hd tl ih =>
    obtain ⟨k, v⟩ := hd
    simp only [assocSet]
    by_cases h : k = key
    · subst h; simp [List.lookup]
    · have hb : (k == key) = false := by simpa using h
      have hb' : (key == k) = false := by simpa using (Ne.symm h)
      simp [hb, List.lookup, hb', ih]

theorem assocSet_lookup_ne {α : Type} (st : List (String × α)) (key k' : String) (e : α)
    (h : k' ≠ key) : (assocSet st key e).lookup k' = st.lookup k' := by
  induction st with
  | nil => simp [assocSet, List.lookup, (by simpa using h : (k' == key) = false)]
  | cons hd tl ih =>
    obtain ⟨k, v⟩ := hd
    simp only [assocSet]
    by_cases hk : k = key
    · subst hk
      have hb : (k' == k) = false := by simpa using h
      simp [List.lookup, hb]
    · have hb : (k == key) = false := by simpa using hk
      simp only [hb, Bool.false_eq_true, if_false, List.lookup]
      cases hkk : k' == k
      · simpa [hkk] using ih
      · simp [hkk]

theorem getCacheKey_inj {a b : String} (h : getCacheKey a = getCacheKey b) : a = b := by
  unfold getCacheKey at h
  cases a with
  | mk da =>
    cases b with
    | mk db =>
      simp only [String.ext_iff, String.data_append] at h ⊢
      exact List.append_cancel_left h

theorem markAsReadUpdateOne_no_match (l : List DMsg) (mid uid : String) (t : Nat)
    (h : ∀ d ∈ l, d.msgId ≠ mid) : markAsReadUpdateOne l mid uid t = l := by
  induction l with
  | nil => rfl
  | cons d rest ih =>
    have hb : (d.msgId == mid) = false := by simpa using h d (by simp)
    simp [markAsReadUpdateOne, hb, ih (fun x hx => h x (by simp [hx]))]

theorem markAsReadUpdateOne_idem (l : List DMsg) (mid uid : String) (t : Nat)
    (h : (l.map DMsg.msgId).Nodup) :
    markAsReadUpdateOne (markAsReadUpdateOne l mid uid t) mid uid t =
      markAsReadUpdateOne l mid uid t := by
  induction l with
  | nil => rfl
  | cons d rest ih =>
    rw [List.map_cons, List.nodup_cons] at h
    obtain ⟨hnotin, hnodup⟩ := h
    by_cases hc : ((d.msgId == mid) && !(d.readers.any (fun r => r.userId == uid))) = true
    · have hmid : d.msgId = mid := by
        have := (Bool.and_eq_true _ _).mp hc
        exact beq_iff_eq.mp this.1
      have hrest : markAsReadUpdateOne rest mid uid t = rest := by
        refine markAsReadUpdateOne_no_match rest mid uid t (fun x hx hxe => ?_)
        exact hnotin (hmid ▸ hxe ▸ List.mem_map_of_mem DMsg.msgId hx)
      have hany :
          (({ d with readers := d.readers ++ [⟨uid, t⟩]} : DMsg).readers.any
            (fun r => r.userId == uid)) = true := by
        simp [List.any_append]
      simp only [markAsReadUpdateOne, hc, if_true]
      simp [markAsReadUpdateOne, hany, hrest]
    · have hcf : ((d.msgId == mid) && !(d.readers.any (fun r => r.userId == uid))) = false :=
        Bool.not_eq_true _ ▸ eq_false_of_ne_true hc
      simp [markAsReadUpdateOne, hcf, ih hnodup]

theorem markAsReadLoop_spec (ids : List String) (cache : List (String × RMsg))
    (uid readAt : String) (h : ids.Nodup) :
    (markAsReadLoop cache uid readAt ids).updated = ids.filter (readNeeded cache uid) ∧
    (∀ id ∈ ids, readNeeded cache uid id = true →
      (markAsReadLoop cache uid readAt ids).cache.lookup (getCacheKey id) =
        (cache.lookup (getCacheKey id)).map
          (fun m => { m with readers := m.readers ++ [⟨uid, readAt⟩] })) ∧
    (∀ k : String, (∀ id ∈ ids, ¬(k = getCacheKey id ∧ readNeeded cache uid id = true)) →
      (markAsReadLoop cache uid readAt ids).cache.lookup k = cache.lookup k) := by
  induction ids generalizing cache with
  | nil => simp [markAsReadLoop]
  | cons id rest ih =>
    obtain ⟨hnotin, hnodup⟩ := List.nodup_cons.mp h
    rcases hl : cache.lookup (getCacheKey id) with _ | m
    · -- document absent: skip
      have hrn : readNeeded cache uid id = false := by simp [readNeeded, hl]
      have heq : markAsReadLoop cache uid readAt (id :: rest) =
          markAsReadLoop cache uid readAt rest := by
        simp [markAsReadLoop, hl]
      obtain ⟨ihA, ihB, ihC⟩ := ih cache hnodup
      refine ⟨?_, ?_, ?_⟩
      · rw [heq, ihA, List.filter_cons, hrn]
        simp
      · intro id' hid' hneed
        rcases List.mem_cons.mp hid' with rfl | hmem
        · rw [hrn] at hneed; cases hneed
        · rw [heq]; exact ihB id' hmem hneed
      · intro k hk
        rw [heq]
        exact ihC k (fun id' hm => hk id' (List.mem_cons_of_mem _ hm))
    · by_cases ha : (m.readers.any (fun r => r.userId == uid)) = true
      · -- the user already appears in readers: skip
        have hrn : readNeeded cache uid id = false := by simp [readNeeded, hl, ha]
        have heq : markAsReadLoop cache uid readAt (id :: rest) =
            markAsReadLoop cache uid readAt rest := by
          simp [markAsReadLoop, hl, ha]
        obtain ⟨ihA, ihB, ihC⟩ := ih cache hnodup
        refine ⟨?_, ?_, ?_⟩
        · rw [heq, ihA, List.filter_cons, hrn]
          simp
        · intro id' hid' hneed
          rcases List.mem_cons.mp hid' with rfl | hmem
          · rw [hrn] at hneed; cases hneed
          · rw [heq]; exact ihB id' hmem hneed
        · intro k hk
          rw [heq]
          exact ihC k (fun id' hm => hk id' (List.mem_cons_of_mem _ hm))
      · -- append the reader, write back, record the id
        have haf : (m.readers.any (fun r => r.userId == uid)) = false :=
          eq_false_of_ne_true ha
        have hrn : readNeeded cache uid id = true := by simp [readNeeded, hl, haf]
        have heq : markAsReadLoop cache uid readAt (id :: rest) =
            ⟨id :: (markAsReadLoop
                (assocSet cache (getCacheKey id)
                  { m with readers := m.readers ++ [⟨uid, readAt⟩] }) uid readAt rest).updated,
              (markAsReadLoop
                (assocSet cache (getCacheKey id)
                  { m with readers := m.readers ++ [⟨uid, readAt⟩] }) uid readAt rest).cache,
              (id, uid) :: (markAsReadLoop
                (assocSet cache (getCacheKey id)
                  { m with readers := m.readers ++ [⟨uid, readAt⟩] }) uid readAt rest).queued⟩ := by
          simp [markAsReadLoop, hl, haf]
        have hpres : ∀ id' ∈ rest,
            readNeeded (assocSet cache (getCacheKey id)
              { m with readers := m.readers ++ [⟨uid, readAt⟩] }) uid id' =
              readNeeded cache uid id' := by
          intro id' hmem
          have hne : getCacheKey id' ≠ getCacheKey id := by
            intro hkey
            exact hnotin (getCacheKey_inj hkey ▸ hmem)
          unfold readNeeded
          rw [assocSet_lookup_ne _ _ _ _ hne]
        obtain ⟨ihA, ihB, ihC⟩ :=
          ih (assocSet cache (getCacheKey id)
            { m with readers := m.readers ++ [⟨uid, readAt⟩] }) hnodup
        refine ⟨?_, ?_, ?_⟩
        · rw [heq]
          show id :: _ = List.filter _ (id :: rest)
          rw [List.filter_cons, hrn, ihA, List.filter_congr (fun x hx => hpres x hx)]
          simp
        · intro id' hid' hneed
          rcases List.mem_cons.mp hid' with rfl | hmem
          · rw [heq]
            show (markAsReadLoop _ uid readAt rest).cache.lookup (getCacheKey id') = _
            have hclean : ∀ id'' ∈ rest,
                ¬(getCacheKey id' = getCacheKey id'' ∧
                  readNeeded (assocSet cache (getCacheKey id')
                    { m with readers := m.readers ++ [⟨uid, readAt⟩] }) uid id'' = true) := by
              intro id'' hm2 hcon
              cases getCacheKey_inj hcon.1
              exact hnotin hm2
            rw [ihC (getCacheKey id') hclean, assocSet_lookup_self, hl]
            rfl
          · rw [heq]
            show (markAsReadLoop _ uid readAt rest).cache.lookup (getCacheKey id') = _
            have hneed' :
                readNeeded (assocSet cache (getCacheKey id)
                  { m with readers := m.readers ++ [⟨uid, readAt⟩] }) uid id' = true := by
              rw [hpres id' hmem]; exact hneed
            have hne : getCacheKey id' ≠ getCacheKey id := by
              intro hkey
              exact hnotin (getCacheKey_inj hkey ▸ hmem)
            rw [ihB id' hmem hneed', assocSet_lookup_ne _ _ _ _ hne]
        · intro k hk
          rw [heq]
          show (markAsReadLoop _ uid readAt rest).cache.lookup k = _
          have hkid : k ≠ getCacheKey id := by
            intro hkk
            exact (hk id (List.mem_cons_self id rest)) ⟨hkk, hrn⟩
          have hk' : ∀ id' ∈ rest,
              ¬(k = getCacheKey id' ∧
                readNeeded (assocSet cache (getCacheKey id)
                  { m with readers := m.readers ++ [⟨uid, readAt⟩] }) uid id' = true) := by
            intro id' hm2 hcon
            exact hk id' (List.mem_cons_of_mem _ hm2) ⟨hcon.1, (hpres id' hm2) ▸ hcon.2⟩
          rw [ihC k hk', assocSet_lookup_ne _ _ _ _ hkid]

/-! ## Claim theorems -/

/-- C1.  The claim states that `acquireLock` performs an atomic
set-if-not-exists with a per-key TTL so that two instances can never both
hold the same resource.  On the code this fails: `acquireLock` on a store
that already holds instance 1's live (never-expiring) token for resource
`roomA` succeeds for instance 2, overwrites the holder token, and leaves
both instances' `activeLocks` maps believing they own the lock — the SET
that is actually issued carries neither `NX` nor `PX`. -/
theorem c1_mutual_exclusion_fails :
    (acquireLock ⟨[], []⟩ "roomA" "instance-1:1000:aaaa" 30000 50).2 = true ∧
    (acquireLock ⟨[], []⟩ "roomA" "instance-1:1000:aaaa" 30000 50).1.store.lookup
      (getLockKey "roomA") = some ⟨"instance-1:1000:aaaa", none⟩ ∧
    (acquireLock
      ⟨(acquireLock ⟨[], []⟩ "roomA" "instance-1:1000:aaaa" 30000 50).1.store, []⟩
      "roomA" "instance-2:1005:bbbb" 30000 50).2 = true ∧
    (acquireLock
      ⟨(acquireLock ⟨[], []⟩ "roomA" "instance-1:1000:aaaa" 30000 50).1.store, []⟩
      "roomA" "instance-2:1005:bbbb" 30000 50).1.store.lookup (getLockKey "roomA") =
      some ⟨"instance-2:1005:bbbb", none⟩ ∧
    (acquireLock ⟨[], []⟩ "roomA" "instance-1:1000:aaaa" 30000 50).1.activeLocks.lookup
      (getLockKey "roomA") = some ⟨"instance-1:1000:aaaa", "roomA", 30000⟩ ∧
    (acquireLock
      ⟨(acquireLock ⟨[], []⟩ "roomA" "instance-1:1000:aaaa" 30000 50).1.store, []⟩
      "roomA" "instance-2:1005:bbbb" 30000 50).1.activeLocks.lookup
      (getLockKey "roomA") = some ⟨"instance-2:1005:bbbb", "roomA", 30000⟩ := by
  decide

/-- C2.  The claim states that `releaseLock` deletes the key and returns
`true` when the recorded holder token equals the stored value.  On the
code this fails: with the recorded token equal to the stored hot-tier
value, `releaseLock` still returns `false` and leaves the key (and the
whole state) untouched, because `redisClient.eval` does not exist. -/
theorem c2_releaseLock_never_releases :
    ((acquireLock ⟨[], []⟩ "roomA" "instance-1:1000:aaaa" 30000 50).1.activeLocks.lookup
        (getLockKey "roomA")).map LockInfo.value =
      ((acquireLock ⟨[], []⟩ "roomA" "instance-1:1000:aaaa" 30000 50).1.store.lookup
        (getLockKey "roomA")).map KvEntry.value ∧
    (releaseLock (acquireLock ⟨[], []⟩ "roomA" "instance-1:1000:aaaa" 30000 50).1
      "roomA").2 = false ∧
    (releaseLock (acquireLock ⟨[], []⟩ "roomA" "instance-1:1000:aaaa" 30000 50).1
      "roomA").1 = (acquireLock ⟨[], []⟩ "roomA" "instance-1:1000:aaaa" 30000 50).1 ∧
    (releaseLock (acquireLock ⟨[], []⟩ "roomA" "instance-1:1000:aaaa" 30000 50).1
      "roomA").1.store.lookup (getLockKey "roomA") =
      some ⟨"instance-1:1000:aaaa", none⟩ := by
  decide

/-- C4.  The claim states that on a hot-tier hit `getMessagesByRoom`
returns the page oldest→newest with `oldestTimestamp` equal to the first
(oldest) element's timestamp.  On the code the page is indeed
oldest→newest and `hasMore` compares the match count with the limit, but
`oldestTimestamp` is read before the reverse and is the NEWEST timestamp
of the page: on a two-message page (timestamps 100 and 200) the result
carries `oldestTimestamp = 200` while the first returned element has
timestamp 100. -/
theorem c4_oldestTimestamp_is_newest :
    (getMessagesByRoom
        [⟨"m1", "r1", "first", ⟨"u1", "A", "", ""⟩, "text", none, none, [], 100, [], [], [], false⟩,
         ⟨"m2", "r1", "second", ⟨"u1", "A", "", ""⟩, "text", none, none, [], 200, [], [], [], false⟩]
        [] "r1" none 30) =
      { messages :=
          [⟨"m1", "r1", "first", ⟨"u1", "A", "", ""⟩, "text", none, none, [], 100, [], [], [], false⟩,
           ⟨"m2", "r1", "second", ⟨"u1", "A", "", ""⟩, "text", none, none, [], 200, [], [], [], false⟩]
        hasMore := false
        oldestTimestamp := some 200
        source := "redis" } ∧
    some 200 ≠
      ((getMessagesByRoom
        [⟨"m1", "r1", "first", ⟨"u1", "A", "", ""⟩, "text", none, none, [], 100, [], [], [], false⟩,
         ⟨"m2", "r1", "second", ⟨"u1", "A", "", ""⟩, "text", none, none, [], 200, [], [], [], false⟩]
        [] "r1" none 30).messages.head?).map RMsg.timestamp := by
  decide

/-- C8 counterexample.  The claim states that a request with `limit=0`
returns an empty message list.  On the code `parseInt('0') || 30`
evaluates to 30, so a `limit=0` request against a room whose hot tier
holds one message returns that message. -/
theorem c8_limit_zero_not_empty :
    effectiveLimit (some 0) = 30 ∧
    (loadMessagesEndpoint
        [⟨"m1", "r1", "hello", ⟨"u1", "A", "", ""⟩, "text", none, none, [], 100, [], [], [], false⟩]
        [] "r1" none (some 0)).messages ≠ [] := by
  decide

/-- C8 (amended).  A request with `limit=0` is treated as the default
limit 30 (the controller's `parseInt(limit) || 30` maps the falsy 0 to
30), identically to an absent limit; for every requested limit greater
than 100 the effective limit used by GET /api/rooms/:roomId/messages is
clamped to 100. -/
theorem c8_limit_clamped (n : Nat) :
    effectiveLimit (some 0) = 30 ∧
    effectiveLimit (some 0) = effectiveLimit none ∧
    (100 < n → effectiveLimit (some n) = 100) := by
  refine ⟨rfl, rfl, fun h => ?_⟩
  cases n with
  | zero => omega
  | succ k =>
    simp only [effectiveLimit, parsedLimitOrDefault, Nat.min_def]
    rw [if_neg (by omega)]

/-- C8 witness for the amended claim. -/
theorem c8_limit_clamped_witness :
    effectiveLimit (some 0) = 30 ∧ (100 < 250 ∧ effectiveLimit (some 250) = 100) :=
  ⟨(c8_limit_clamped 250).1, by decide, (c8_limit_clamped 250).2.2 (by decide)⟩

/-- C9.  The claim states that after `leaveRoom(roomId)` no streaming
session started by that user in that room remains, and that `disconnect`
removes all of the user's streaming sessions.  On the code both cleanup
loops compare `session.userId` — a property the session object does not
have — with the (string) `socket.user.id`, so the predicate is never true
and no session is ever removed: after user `u1` triggers `@wayneAI` in
room `r1` and then leaves `r1` (or disconnects), the session is still in
the map. -/
theorem c9_stream_cleanup_removes_nothing :
    startStreamingSession [] "r1" "wayneAI" 1000 ≠ [] ∧
    leaveRoomStreamCleanup (startStreamingSession [] "r1" "wayneAI" 1000) "r1" "u1" =
      startStreamingSession [] "r1" "wayneAI" 1000 ∧
    disconnectStreamCleanup (startStreamingSession [] "r1" "wayneAI" 1000) "u1" =
      startStreamingSession [] "r1" "wayneAI" 1000 := by
  decide

/-- C10.  `checkPassword` returns `true` for every input (including
`undefined`) when `hasPassword` is false; when `hasPassword` is true it
returns `true` exactly when the argument is string-equal to the password
stored in the durable tier. -/
theorem c10_checkPassword_spec (r : RoomDoc) (p : Option String) :
    (r.hasPassword = false → checkPassword r p = true) ∧
    (∀ pw : String, r.hasPassword = true → r.password = some pw →
      (checkPassword r p = true ↔ p = some pw)) := by
  constructor
  · intro h
    simp [checkPassword, h]
  · intro pw h hpw
    simp [checkPassword, h, hpw, jsStrictEq_iff]

/-- C10 witness: a public room accepts any (even absent) password, and a
protected room accepts exactly the stored password. -/
theorem c10_checkPassword_spec_witness :
    checkPassword ⟨"open", false, none⟩ (some "anything") = true ∧
    checkPassword ⟨"open", false, none⟩ none = true ∧
    (checkPassword ⟨"locked", true, some "pw1"⟩ (some "pw1") = true ↔
      (some "pw1" : Option String) = some "pw1") ∧
    (checkPassword ⟨"locked", true, some "pw1"⟩ (some "nope") = true ↔
      (some "nope" : Option String) = some "pw1") :=
  ⟨(c10_checkPassword_spec ⟨"open", false, none⟩ (some "anything")).1 rfl,
   (c10_checkPassword_spec ⟨"open", false, none⟩ none).1 rfl,
   (c10_checkPassword_spec ⟨"locked", true, some "pw1"⟩ (some "pw1")).2 "pw1" rfl rfl,
   (c10_checkPassword_spec ⟨"locked", true, some "pw1"⟩ (some "nope")).2 "pw1" rfl rfl⟩

/-- C3.  `createMessage` acquires the distributed lock
`room_message_create:<roomId>` with TTL 5000 ms and 30 retries as its
first effect, before any write; when acquisition fails it throws an error
surfacing "Failed to acquire distributed lock"; and in every execution —
in particular on any failure after acquisition — the last effect before
the result propagates is a release of that lock. -/
theorem c3_createMessage_lock_discipline (cache : List (String × RMsg))
    (p : MessagePayload) (messageId : String) (nowMs : Nat)
    (lockOk jsonSetOk enqueueOk broadcastOk : Bool) :
    (createMessage cache p messageId nowMs lockOk jsonSetOk enqueueOk broadcastOk).events.head? =
      some (CMEvent.lockAcquire ("room_message_create:" ++ p.room) 5000 30 lockOk) ∧
    (createMessage cache p messageId nowMs lockOk jsonSetOk enqueueOk broadcastOk).events.getLast? =
      some (CMEvent.lockRelease ("room_message_create:" ++ p.room)) ∧
    (lockOk = false →
      (createMessage cache p messageId nowMs lockOk jsonSetOk enqueueOk broadcastOk).result =
        Except.error ("Failed to acquire distributed lock" ++ " for message creation")) := by
  cases lockOk <;> cases jsonSetOk <;> cases enqueueOk <;> cases broadcastOk <;>
    simp [createMessage, List.getLast?]

/-- C3 witness: at a concrete payload, failed acquisition yields the
"Failed to acquire distributed lock ..." error, and a run whose enqueue
rejects still ends with the lock release. -/
theorem c3_createMessage_lock_discipline_witness :
    (createMessage [] ⟨"r1", some "hi", ⟨"u1", "A", "", ""⟩, some "text", none, none, none, none⟩
        "m1" 5 false true true true).result =
      Except.error ("Failed to acquire distributed lock" ++ " for message creation") ∧
    (createMessage [] ⟨"r1", some "hi", ⟨"u1", "A", "", ""⟩, some "text", none, none, none, none⟩
        "m1" 5 true true false true).events.getLast? =
      some (CMEvent.lockRelease ("room_message_create:" ++ "r1")) :=
  ⟨(c3_createMessage_lock_discipline []
      ⟨"r1", some "hi", ⟨"u1", "A", "", ""⟩, some "text", none, none, none, none⟩
      "m1" 5 false true true true).2.2 rfl,
   (c3_createMessage_lock_discipline []
      ⟨"r1", some "hi", ⟨"u1", "A", "", ""⟩, some "text", none, none, none, none⟩
      "m1" 5 true true false true).2.1⟩

/-- C6.  For a sync entry failing with current retry count `r`: when
`r < MAX_RETRIES` a new entry carrying retry count `r + 1`, the original
entry id and the last error is appended to the primary stream (and the
dead-letter stream is untouched); otherwise a copy carrying the final
error and the original entry id is appended to the dead-letter stream
(and the primary stream is untouched); in both cases the original entry
is ACKed. -/
theorem c6_retry_or_dead_letter (qs : SyncQueueState) (messageId : String)
    (payload : SyncStreamEntry) (errMsg nowIso : String) :
    (payload.retryCount < MAX_RETRIES →
      (handleFailedMessage qs messageId payload errMsg nowIso).primary =
        qs.primary ++
          [{ payload with
              retryCount := payload.retryCount + 1
              originalMessageId := some messageId
              lastError := some errMsg
              retryTimestamp := some nowIso }] ∧
      (handleFailedMessage qs messageId payload errMsg nowIso).deadLetter = qs.deadLetter) ∧
    (MAX_RETRIES ≤ payload.retryCount →
      (handleFailedMessage qs messageId payload errMsg nowIso).deadLetter =
        qs.deadLetter ++
          [{ payload with
              finalError := some errMsg
              failedAt := some nowIso
              originalMessageId := some messageId }] ∧
      (handleFailedMessage qs messageId payload errMsg nowIso).primary = qs.primary) ∧
    (handleFailedMessage qs messageId payload errMsg nowIso).acked =
      qs.acked ++ [messageId] := by
  refine ⟨fun h => ?_, fun h => ?_, ?_⟩
  · have h1 : payload.retryCount + 1 ≤ MAX_RETRIES := h
    simp [handleFailedMessage, h1]
  · have h1 : ¬ (payload.retryCount + 1 ≤ MAX_RETRIES) := by
      simp only [MAX_RETRIES] at h ⊢
      omega
    simp [handleFailedMessage, h1]
  · by_cases h1 : payload.retryCount + 1 ≤ MAX_RETRIES <;>
      simp [handleFailedMessage, h1]

/-- C6 witness: an entry with retry count 0 is re-enqueued with count 1,
origin id and last error; an entry with retry count 3 goes to the
dead-letter stream with the final error; both are ACKed. -/
theorem c6_retry_or_dead_letter_witness :
    (handleFailedMessage ⟨[], [], []⟩ "7-0"
        ⟨"CREATE_MESSAGE", "d", "t0", 0, none, none, none, none, none⟩ "boom" "t1").primary =
      [⟨"CREATE_MESSAGE", "d", "t0", 1, some "7-0", some "boom", some "t1", none, none⟩] ∧
    (handleFailedMessage ⟨[], [], []⟩ "7-1"
        ⟨"CREATE_MESSAGE", "d", "t0", 3, none, none, none, none, none⟩ "boom" "t1").deadLetter =
      [⟨"CREATE_MESSAGE", "d", "t0", 3, some "7-1", none, none, some "boom", some "t1"⟩] ∧
    (handleFailedMessage ⟨[], [], []⟩ "7-1"
        ⟨"CREATE_MESSAGE", "d", "t0", 3, none, none, none, none, none⟩ "boom" "t1").acked =
      ["7-1"] :=
  ⟨((c6_retry_or_dead_letter ⟨[], [], []⟩ "7-0"
      ⟨"CREATE_MESSAGE", "d", "t0", 0, none, none, none, none, none⟩ "boom" "t1").1
      (by decide)).1,
   ((c6_retry_or_dead_letter ⟨[], [], []⟩ "7-1"
      ⟨"CREATE_MESSAGE", "d", "t0", 3, none, none, none, none, none⟩ "boom" "t1").2.1
      (by decide)).1,
   (c6_retry_or_dead_letter ⟨[], [], []⟩ "7-1"
      ⟨"CREATE_MESSAGE", "d", "t0", 3, none, none, none, none, none⟩ "boom" "t1").2.2⟩

/-- C5.  `markAsRead(messageIds, userId)` appends a `{userId, readAt}`
reader entry exactly to those cached messages whose readers set does not
already contain the user, returns exactly that subset of the requested
ids, leaves every other cache entry untouched; a second identical call
(over the updated cache) returns the empty list, and the socket hub
broadcasts `messagesRead` iff the returned subset is non-empty. -/
theorem c5_markAsRead_spec (cache : List (String × RMsg)) (ids : List String)
    (uid readAt readAt' : String) (h : ids.Nodup) :
    (markAsRead cache ids uid readAt).updated = ids.filter (readNeeded cache uid) ∧
    (∀ id ∈ ids, readNeeded cache uid id = true →
      (markAsRead cache ids uid readAt).cache.lookup (getCacheKey id) =
        (cache.lookup (getCacheKey id)).map
          (fun m => { m with readers := m.readers ++ [⟨uid, readAt⟩] })) ∧
    (∀ k : String, (∀ id ∈ ids, ¬(k = getCacheKey id ∧ readNeeded cache uid id = true)) →
      (markAsRead cache ids uid readAt).cache.lookup k = cache.lookup k) ∧
    (markAsRead (markAsRead cache ids uid readAt).cache ids uid readAt').updated = [] ∧
    ((markMessagesAsReadBroadcast (markAsRead cache ids uid readAt).updated uid).isSome ↔
      (markAsRead cache ids uid readAt).updated ≠ []) := by
  obtain ⟨hA, hB, hC⟩ := markAsReadLoop_spec ids cache uid readAt h
  obtain ⟨hA', hB', hC'⟩ :=
    markAsReadLoop_spec ids (markAsReadLoop cache uid readAt ids).cache uid readAt' h
  refine ⟨hA, hB, hC, ?_, ?_⟩
  · show (markAsReadLoop (markAsReadLoop cache uid readAt ids).cache uid readAt' ids).updated = []
    rw [hA']
    refine List.filter_eq_nil_iff.mpr (fun id hid => ?_)
    by_cases hn : readNeeded cache uid id = true
    · have hbb := hB id hid hn
      rcases hl : cache.lookup (getCacheKey id) with _ | m
      · rw [readNeeded, hl] at hn; cases hn
      · rw [hl] at hbb
        intro hcontra
        unfold readNeeded at hcontra
        rw [hbb] at hcontra
        simp [List.any_append] at hcontra
    · have hsame :
          (markAsReadLoop cache uid readAt ids).cache.lookup (getCacheKey id) =
            cache.lookup (getCacheKey id) := by
        refine hC (getCacheKey id) (fun id' hm' hcon => ?_)
        cases getCacheKey_inj hcon.1
        exact hn hcon.2
      intro hcontra
      refine hn ?_
      have hrw : readNeeded (markAsReadLoop cache uid readAt ids).cache uid id =
          readNeeded cache uid id := by
        unfold readNeeded
        rw [hsame]
      exact hrw ▸ hcontra
  · cases hu : (markAsRead cache ids uid readAt).updated with
    | nil => simp [markMessagesAsReadBroadcast]
    | cons a l => simp [markMessagesAsReadBroadcast]

/-- C5 witness: with a cache holding an unread message `m1` and a message
`m2` already read by `u1`, the call updates exactly `m1`; the repeated
call updates nothing. -/
theorem c5_markAsRead_spec_witness :
    (["m1", "m2"] : List String).Nodup ∧
    (markAsRead
        [("message:m1",
          ⟨"m1", "r1", "a", ⟨"u2", "B", "", ""⟩, "text", none, none, [], 100, [], [], [], false⟩),
         ("message:m2",
          ⟨"m2", "r1", "b", ⟨"u2", "B", "", ""⟩, "text", none, none, [], 101,
            [⟨"u1", "t0"⟩], [], [], false⟩)]
        ["m1", "m2"] "u1" "t1").updated = ["m1"] ∧
    (markAsRead
      (markAsRead
        [("message:m1",
          ⟨"m1", "r1", "a", ⟨"u2", "B", "", ""⟩, "text", none, none, [], 100, [], [], [], false⟩),
         ("message:m2",
          ⟨"m2", "r1", "b", ⟨"u2", "B", "", ""⟩, "text", none, none, [], 101,
            [⟨"u1", "t0"⟩], [], [], false⟩)]
        ["m1", "m2"] "u1" "t1").cache ["m1", "m2"] "u1" "t2").updated = [] := by
  refine ⟨by decide, ?_, ?_⟩
  · rw [(c5_markAsRead_spec
      [("message:m1",
        ⟨"m1", "r1", "a", ⟨"u2", "B", "", ""⟩, "text", none, none, [], 100, [], [], [], false⟩),
       ("message:m2",
        ⟨"m2", "r1", "b", ⟨"u2", "B", "", ""⟩, "text", none, none, [], 101,
          [⟨"u1", "t0"⟩], [], [], false⟩)]
      ["m1", "m2"] "u1" "t1" "t2" (by decide)).1]
    decide
  · exact (c5_markAsRead_spec
      [("message:m1",
        ⟨"m1", "r1", "a", ⟨"u2", "B", "", ""⟩, "text", none, none, [], 100, [], [], [], false⟩),
       ("message:m2",
        ⟨"m2", "r1", "b", ⟨"u2", "B", "", ""⟩, "text", none, none, [], 101,
          [⟨"u1", "t0"⟩], [], [], false⟩)]
      ["m1", "m2"] "u1" "t1" "t2" (by decide)).2.2.2.1

/-- C7.  Applying the same sync event twice leaves the durable tier in the
same state as applying it once: `CREATE_MESSAGE` treats the duplicate-key
error for an already-existing message id as success, and `MARK_AS_READ`
pushes a reader entry only when no entry for that user exists.  (The
durable tier's `_id` uniqueness is the `Nodup` hypothesis.) -/
theorem c7_sync_event_idempotent (db : List DMsg) (e : SyncEvent)
    (h : (db.map DMsg.msgId).Nodup) :
    applySyncEvent (applySyncEvent db e) e = applySyncEvent db e := by
  cases e with
  | createMessage m =>
    show handleCreateMessage (handleCreateMessage db m) m = handleCreateMessage db m
    by_cases hex : (db.any (fun d => d.msgId == m.msgId)) = true
    · simp [handleCreateMessage, hex]
    · have hex' : (db.any (fun d => d.msgId == m.msgId)) = false :=
        eq_false_of_ne_true hex
      have happ : ((db ++ [m]).any (fun d => d.msgId == m.msgId)) = true := by
        simp [List.any_append]
      simp [handleCreateMessage, hex', happ]
  | markAsRead mid uidr t =>
    exact markAsReadUpdateOne_idem db mid uidr t h

/-- C7 witness: a one-document durable tier with distinct ids; a repeated
`MARK_AS_READ` and a repeated `CREATE_MESSAGE` are both no-ops the second
time. -/
theorem c7_sync_event_idempotent_witness :
    (([⟨"m1", "r1", "u1", "hello", "text", none, none, [], 100, [], [], [], false⟩] :
        List DMsg).map DMsg.msgId).Nodup ∧
    applySyncEvent
        (applySyncEvent
          [⟨"m1", "r1", "u1", "hello", "text", none, none, [], 100, [], [], [], false⟩]
          (SyncEvent.markAsRead "m1" "u2" 7))
        (SyncEvent.markAsRead "m1" "u2" 7) =
      applySyncEvent
        [⟨"m1", "r1", "u1", "hello", "text", none, none, [], 100, [], [], [], false⟩]
        (SyncEvent.markAsRead "m1" "u2" 7) ∧
    applySyncEvent
        (applySyncEvent ([] : List DMsg)
          (SyncEvent.createMessage
            ⟨"m1", "r1", "u1", "hello", "text", none, none, [], 100, [], [], [], false⟩))
        (SyncEvent.createMessage
          ⟨"m1", "r1", "u1", "hello", "text", none, none, [], 100, [], [], [], false⟩) =
      applySyncEvent ([] : List DMsg)
        (SyncEvent.createMessage
          ⟨"m1", "r1", "u1", "hello", "text", none, none, [], 100, [], [], [], false⟩) :=
  ⟨by decide,
   c7_sync_event_idempotent
     [⟨"m1", "r1", "u1", "hello", "text", none, none, [], 100, [], [], [], false⟩]
     (SyncEvent.markAsRead "m1" "u2" 7) (by decide),
   c7_sync_event_idempotent []
     (SyncEvent.createMessage
       ⟨"m1", "r1", "u1", "hello", "text", none, none, [], 100, [], [], [], false⟩)
     (by decide)⟩

end ChatBackend
